import Mathlib

/-!
Shallow embedding of the openclaw-a365 channel plugin core:
the conversation-reference store (`src/conversation-store.ts`),
the Graph token acquisition and cache module (`src/token.ts`, concatenated
into the same source file), and the outbound delivery resolver
(`src/outbound.ts`).

Modelling conventions:
- JS string-keyed objects and `Map`s are association lists in insertion
  order; property update keeps the position, insertion appends.
- JS truthiness on possibly-absent strings (`undefined` and `""` are falsy)
  is `strTruthy`; on possibly-absent numbers (`undefined` and `0` falsy)
  it is `numTruthy`.
- `fetch` is modelled by response oracles passed as arguments; the requests
  a function issues are returned as an explicit trace.
- `Date.now()` is the explicit `now : Int` argument (milliseconds since
  epoch); `new Date(s).getTime()` is an explicit `parseDate` argument.
- a thrown `Error(msg)` is `Except.error msg`.
-/

namespace OpenClawA365

/-- Lookup in a JS object / Map modelled as an insertion-ordered
association list. -/
def mapGet {α : Type} (m : List (String × α)) (k : String) : Option α :=
  match m with
  | [] => none
  | (k', v) :: rest => if k' = k then some v else mapGet rest k

/-- Property write `m[k] = v` / `Map.set`: replaces in place when the key
exists, appends otherwise. -/
def mapSet {α : Type} (m : List (String × α)) (k : String) (v : α) :
    List (String × α) :=
  match m with
  | [] => [(k, v)]
  | (k', v') :: rest => if k' = k then (k, v) :: rest else (k', v') :: mapSet rest k v

/-- JS truthiness of a possibly-undefined string: `undefined` and `""` are
falsy. -/
def strTruthy (s : Option String) : Bool :=
  match s with
  | none => false
  | some s => s ≠ ""

/-- JS truthiness of a possibly-undefined number (`undefined` and `0`
falsy). -/
def numTruthy (n : Option Int) : Bool :=
  match n with
  | none => false
  | some v => v ≠ 0

/-- JS `a || b` on two possibly-undefined strings. -/
def jsOrOpt (a b : Option String) : Option String :=
  if strTruthy a then a else b

/-- JS `a || b` where `b` is a present string, yielding a present string. -/
def jsOrS (a : Option String) (b : String) : String :=
  match a with
  | none => b
  | some s => if s = "" then b else s

/-- Character-list core of the JS `String.prototype.startsWith` test. -/
def strHasPre (pre s : List Char) : Bool :=
  match pre, s with
  | [], _ => true
  | _ :: _, [] => false
  | c :: cs, d :: ds => c == d && strHasPre cs ds

/-- JS `s.startsWith(p)`. -/
def jsStartsWith (s p : String) : Bool :=
  strHasPre p.data s.data

/-- JS `s.includes(c)` for a single-character needle. -/
def strContainsChar (s : String) (c : Char) : Bool :=
  s.data.any (fun d => d == c)

/-- JS `s.slice(n)`: drop the first `n` characters. -/
def jsSliceFrom (s : String) (n : Nat) : String :=
  ⟨s.data.drop n⟩

/-! ## Conversation reference store (`src/conversation-store.ts`)

The stored value is the SDK `ConversationReference` shape mirrored by the
source's `StoredConversationReference` type: `{activityId?, user?, agent?,
conversation: {id, ...}, channelId, serviceUrl?, locale?}`. The
`Record<string, unknown>` fields `user`/`agent` are modelled as opaque
string-keyed maps; the conversation object's index signature is modelled
by the extra properties the channel actually stores (`isGroup`,
`tenantId`). -/

/-- Conversation object of a stored reference: `{ id: string;
[key: string]: unknown }`. -/
structure Conversation where
  id : String
  isGroup : Option Bool := none
  tenantId : Option String := none
  deriving Repr, DecidableEq

/-- The source's `StoredConversationReference` (conversation-store.ts). It
has no top-level `conversationId` property: the id lives at
`conversation.id`. -/
structure StoredConversationReference where
  activityId : Option String := none
  user : Option (List (String × String)) := none
  agent : Option (List (String × String)) := none
  conversation : Conversation
  channelId : String
  serviceUrl : Option String := none
  locale : Option String := none
  deriving Repr, DecidableEq

/-- One record of `ConversationStore.references`. -/
structure StoreEntry where
  ref : StoredConversationReference
  updatedAt : Int
  userAadId : Option String := none
  deriving Repr, DecidableEq

/-- The persisted store: `{ references: Record<string, StoreEntry> }`. -/
structure ConversationStore where
  references : List (String × StoreEntry)
  deriving Repr, DecidableEq

/-- `saveConversationReference(ref, userAadId)`: upsert keyed by
`ref.conversation.id`, stamping `Date.now()`. -/
def saveConversationReference (store : ConversationStore)
    (ref : StoredConversationReference) (now : Int)
    (userAadId : Option String) : ConversationStore :=
  { references := mapSet store.references ref.conversation.id
      { ref := ref, updatedAt := now, userAadId := userAadId } }

/-- `getConversationReference(conversationId)`:
`store.references[conversationId]?.ref`. -/
def getConversationReference (store : ConversationStore)
    (conversationId : String) : Option StoredConversationReference :=
  (mapGet store.references conversationId).map (fun e => e.ref)

/-- Second conjunct of the loop condition of `getConversationReferenceByUser`:
`!best || entry.updatedAt > best.updatedAt`. -/
def byUserNewer (best : Option StoreEntry) (e : StoreEntry) : Bool :=
  match best with
  | none => true
  | some b => decide (e.updatedAt > b.updatedAt)

/-- Loop body of `getConversationReferenceByUser`: keep `entry` when it
matches the user and is strictly newer than the best so far. -/
def byUserStep (userAadId : String) (best : Option StoreEntry)
    (p : String × StoreEntry) : Option StoreEntry :=
  if p.2.userAadId == some userAadId && byUserNewer best p.2 then
    some p.2
  else best

/-- `getConversationReferenceByUser(userAadId)`: scan `Object.values` of the
references in insertion order, keeping the strictly-newest matching entry. -/
def getConversationReferenceByUser (store : ConversationStore)
    (userAadId : String) : Option StoredConversationReference :=
  (store.references.foldl (byUserStep userAadId) none).map (fun e => e.ref)

/-- Roundtrip law for the association-list map. -/
theorem mapGet_mapSet_self {α : Type} (m : List (String × α)) (k : String) (v : α) :
    mapGet (mapSet m k v) k = some v := by
  induction m with
  | nil => simp [mapGet, mapSet]
  | cons p rest ih =>
    obtain ⟨k', v'⟩ := p
    by_cases h : k' = k
    · simp [mapGet, mapSet, h]
    · simp [mapGet, mapSet, h, ih]

/-- Invariant of the `getConversationReferenceByUser` fold: starting from an
accumulator known to match the user, a `some` result matches the user, comes
from the accumulator or the list, is at least as new as the accumulator, and
is at least as new as every matching entry of the list. -/
theorem byUser_fold_spec (u : String) (l : List (String × StoreEntry)) :
    ∀ acc : Option StoreEntry,
      (∀ b, acc = some b → b.userAadId = some u) →
      ∀ e, l.foldl (byUserStep u) acc = some e →
        e.userAadId = some u
        ∧ (acc = some e ∨ e ∈ l.map Prod.snd)
        ∧ (∀ b, acc = some b → b.updatedAt ≤ e.updatedAt)
        ∧ (∀ e', e' ∈ l.map Prod.snd → e'.userAadId = some u →
            e'.updatedAt ≤ e.updatedAt) := by
  induction l with
  | nil =>
    intro acc hacc e he
    simp only [List.foldl_nil] at he
    refine ⟨hacc e he, Or.inl he, ?_, by simp⟩
    intro b hb
    rw [hb] at he
    cases he
    exact le_refl _
  | cons p rest ih =>
    intro acc hacc e he
    simp only [List.foldl_cons] at he
    by_cases hcond : (p.2.userAadId == some u && byUserNewer acc p.2) = true
    · -- the head entry takes over the accumulator
      have hstep : byUserStep u acc p = some p.2 := by
        simp [byUserStep, hcond]
      have hmatch : p.2.userAadId = some u :=
        eq_of_beq ((Bool.and_eq_true _ _).mp hcond).1
      rw [hstep] at he
      obtain ⟨h1, h2, h3, h4⟩ :=
        ih (some p.2) (by intro b hb; cases hb; exact hmatch) e he
      refine ⟨h1, ?_, ?_, ?_⟩
      · right
        simp only [List.map_cons, List.mem_cons]
        rcases h2 with h2 | h2
        · injection h2 with h2; exact Or.inl h2.symm
        · exact Or.inr h2
      · intro b hb
        have hnew : byUserNewer acc p.2 = true :=
          ((Bool.and_eq_true _ _).mp hcond).2
        rw [hb] at hnew
        simp only [byUserNewer, gt_iff_lt, decide_eq_true_eq] at hnew
        exact le_of_lt (lt_of_lt_of_le hnew (h3 p.2 rfl))
      · intro e' he' hm
        simp only [List.map_cons, List.mem_cons] at he'
        rcases he' with rfl | he'
        · exact h3 p.2 rfl
        · exact h4 e' he' hm
    · -- the head entry is skipped, the accumulator survives
      have hstep : byUserStep u acc p = acc := by
        simp [byUserStep, hcond]
      rw [hstep] at he
      obtain ⟨h1, h2, h3, h4⟩ := ih acc hacc e he
      refine ⟨h1, ?_, h3, ?_⟩
      · rcases h2 with h2 | h2
        · exact Or.inl h2
        · right
          simp only [List.map_cons, List.mem_cons]
          exact Or.inr h2
      · intro e' he' hm
        simp only [List.map_cons, List.mem_cons] at he'
        rcases he' with rfl | he'
        · -- the skipped head matches the user, so the strictness test failed
          have hbeq : (p.2.userAadId == some u) = true := by simp [hm]
          have hnew : byUserNewer acc p.2 = false := by
            cases hn : byUserNewer acc p.2
            · rfl
            · exact absurd ((Bool.and_eq_true _ _).mpr ⟨hbeq, hn⟩) hcond
          cases acc with
          | none => simp [byUserNewer] at hnew
          | some b =>
            simp only [byUserNewer, gt_iff_lt, decide_eq_false_iff_not,
              not_lt] at hnew
            exact le_trans hnew (h3 b rfl)
        · exact h4 e' he' hm

/-- Group conversation reference (larger `updatedAt`) for the store
scenarios. -/
def refGroupEx : StoredConversationReference :=
  { conversation := { id := "19:meeting", isGroup := some true },
    channelId := "msteams",
    serviceUrl := some "https://smba.trafficmanager.net/amer/t1/" }

/-- Direct (non-group) conversation reference (smaller `updatedAt`) for the
store scenarios. -/
def refDirectEx : StoredConversationReference :=
  { conversation := { id := "a:direct", isGroup := some false },
    channelId := "msteams",
    serviceUrl := some "https://smba.trafficmanager.net/amer/t1/" }

/-- Store holding a group reference (updatedAt 10) and a direct reference
(updatedAt 5) for the same user. -/
def storeGroupDirect : ConversationStore :=
  { references :=
      [("19:meeting", { ref := refGroupEx, updatedAt := 10, userAadId := some "399f383c" }),
       ("a:direct", { ref := refDirectEx, updatedAt := 5, userAadId := some "399f383c" })] }

/-- C2 counterexample: with a group reference of `updatedAt` 10 and a direct
reference of `updatedAt` 5 stored for the same user,
`getConversationReferenceByUser` returns the group one — the code never
consults group status, so the claimed direct-over-group preference is
false. -/
theorem getByUser_prefers_newer_group_over_direct :
    getConversationReferenceByUser storeGroupDirect "399f383c" = some refGroupEx
    ∧ refGroupEx.conversation.isGroup = some true
    ∧ refDirectEx.conversation.isGroup = some false
    ∧ getConversationReferenceByUser storeGroupDirect "399f383c" ≠ some refDirectEx := by
  refine ⟨rfl, rfl, rfl, ?_⟩
  decide

/-- C2 (amended): `getConversationReferenceByUser` ignores group status
entirely; it returns a stored entry for the requested `userAadId` whose
`updatedAt` is maximal among all entries for that user. -/
theorem getConversationReferenceByUser_max_updatedAt (store : ConversationStore)
    (u : String) (r : StoredConversationReference)
    (h : getConversationReferenceByUser store u = some r) :
    ∃ e, e ∈ store.references.map Prod.snd ∧ e.ref = r ∧ e.userAadId = some u ∧
      ∀ e', e' ∈ store.references.map Prod.snd → e'.userAadId = some u →
        e'.updatedAt ≤ e.updatedAt := by
  unfold getConversationReferenceByUser at h
  cases hf : store.references.foldl (byUserStep u) none with
  | none => rw [hf] at h; simp at h
  | some e =>
    rw [hf] at h
    simp only [Option.map_some'] at h
    obtain ⟨h1, h2, h3, h4⟩ :=
      byUser_fold_spec u store.references none (by simp) e hf
    rcases h2 with h2 | h2
    · cases h2
    · exact ⟨e, h2, by injection h, h1, h4⟩

/-- Witness for C2's amended theorem at the concrete two-entry store. -/
theorem getConversationReferenceByUser_max_updatedAt_witness :
    ∃ e, e ∈ storeGroupDirect.references.map Prod.snd ∧ e.ref = refGroupEx ∧
      e.userAadId = some "399f383c" ∧
      ∀ e', e' ∈ storeGroupDirect.references.map Prod.snd →
        e'.userAadId = some "399f383c" → e'.updatedAt ≤ e.updatedAt :=
  getConversationReferenceByUser_max_updatedAt storeGroupDirect "399f383c"
    refGroupEx rfl

/-- C7: `save` followed by `getById` at the saved key returns exactly the
saved reference, and a second save under the same conversation id fully
replaces the first: `getById` then returns exactly the second reference. -/
theorem saveConversationReference_roundtrip_replace (store : ConversationStore)
    (ref ref2 : StoredConversationReference) (now now2 : Int)
    (uid uid2 : Option String)
    (h : ref2.conversation.id = ref.conversation.id) :
    getConversationReference (saveConversationReference store ref now uid)
      ref.conversation.id = some ref
    ∧ getConversationReference
        (saveConversationReference (saveConversationReference store ref now uid)
          ref2 now2 uid2)
        ref.conversation.id = some ref2 := by
  constructor
  · unfold getConversationReference saveConversationReference
    rw [mapGet_mapSet_self]
    rfl
  · unfold getConversationReference saveConversationReference
    rw [← h, mapGet_mapSet_self]
    rfl

/-- Witness for C7 at two concrete references sharing the conversation id
"19:meeting" but differing in every optional field: the second fully
replaces the first. -/
theorem saveConversationReference_roundtrip_replace_witness :
    ("19:meeting" : String) = "19:meeting"
    ∧ getConversationReference
        (saveConversationReference { references := [] } refGroupEx 1 (some "u"))
        "19:meeting" = some refGroupEx
    ∧ getConversationReference
        (saveConversationReference
          (saveConversationReference { references := [] } refGroupEx 1 (some "u"))
          { refGroupEx with serviceUrl := none, locale := some "en-US" } 2 none)
        "19:meeting"
      = some { refGroupEx with serviceUrl := none, locale := some "en-US" } :=
  ⟨rfl,
   (saveConversationReference_roundtrip_replace { references := [] } refGroupEx
      { refGroupEx with serviceUrl := none, locale := some "en-US" } 1 2
      (some "u") none rfl).1,
   (saveConversationReference_roundtrip_replace { references := [] } refGroupEx
      { refGroupEx with serviceUrl := none, locale := some "en-US" } 1 2
      (some "u") none rfl).2⟩

/-- Conversation reference with no `serviceUrl` at all. -/
def refNoUrl : StoredConversationReference :=
  { conversation := { id := "c-nourl" }, channelId := "msteams",
    serviceUrl := none }

/-- Store produced by saving the serviceUrl-less reference. -/
def storeNoUrl : ConversationStore :=
  saveConversationReference { references := [] } refNoUrl 7 (some "u5")

/-- C5 counterexample: a reference with no `serviceUrl` is accepted by
`saveConversationReference` without any validation, and both `getById` and
`getByUser` return it rather than treating it as a miss — so a read can
return a reference that is unusable for delivery. -/
theorem store_returns_reference_without_serviceUrl :
    getConversationReference storeNoUrl "c-nourl" = some refNoUrl
    ∧ refNoUrl.serviceUrl = none
    ∧ getConversationReferenceByUser storeNoUrl "u5" = some refNoUrl :=
  ⟨rfl, rfl, rfl⟩

/-- C5 (amended): the store enforces no delivery-usability invariant:
`save` accepts a reference whose `serviceUrl` is absent, and `getById`
returns it as stored instead of rejecting it or reporting a miss. -/
theorem saveConversationReference_no_serviceUrl_validation
    (store : ConversationStore) (ref : StoredConversationReference)
    (now : Int) (uid : Option String) (h : ref.serviceUrl = none) :
    getConversationReference (saveConversationReference store ref now uid)
        ref.conversation.id = some ref
    ∧ ((getConversationReference (saveConversationReference store ref now uid)
        ref.conversation.id).bind (fun r => r.serviceUrl)) = none := by
  constructor
  · unfold getConversationReference saveConversationReference
    rw [mapGet_mapSet_self]
    rfl
  · unfold getConversationReference saveConversationReference
    rw [mapGet_mapSet_self]
    simp [h]

/-- Witness for C5's amended theorem at the concrete serviceUrl-less
reference. -/
theorem saveConversationReference_no_serviceUrl_validation_witness :
    refNoUrl.serviceUrl = none
    ∧ getConversationReference
        (saveConversationReference { references := [] } refNoUrl 7 (some "u5"))
        "c-nourl" = some refNoUrl :=
  ⟨rfl,
   (saveConversationReference_no_serviceUrl_validation { references := [] }
      refNoUrl 7 (some "u5") rfl).1⟩

/-! ## Graph token module (`src/token.ts`, concatenated in
conversation-store.ts)

`resolveGraphTokenConfig` / `resolveTokenCallbackConfig` read config and
environment variables; their resolved results are passed in as
`Option GraphTokenConfig` / `Option TokenCallbackConfig` arguments. `fetch`
against the token endpoint(s) is modelled by per-request response oracles,
and every function returns the list of requests it issued. -/

/-- Parameters for the T1/T2/User flow (token.ts `GraphTokenConfig`). -/
structure GraphTokenConfig where
  tenantId : String
  blueprintClientAppId : String
  blueprintClientSecret : String
  aaInstanceId : String
  scope : Option String := none
  deriving Repr, DecidableEq

/-- Cached Graph token (token.ts `CachedToken`): `expiresAt` is absolute
milliseconds since epoch. -/
structure CachedToken where
  accessToken : String
  expiresAt : Int
  deriving Repr, DecidableEq

/-- External token callback configuration (token.ts `TokenCallbackConfig`). -/
structure TokenCallbackConfig where
  callbackUrl : String
  callbackToken : Option String := none
  deriving Repr, DecidableEq

/-- One network request issued by the token module, with the parameters the
source puts in the request body. -/
inductive TokenRequest where
  | t1 (clientId clientSecret fmiPath : String)
  | t2 (clientId clientAssertion : String)
  | userFic (clientId clientAssertion username userFicCredential scope : String)
  | callback (url username scope : String)
  deriving Repr, DecidableEq

/-- Response oracle for one POST to the tenant token endpoint: `ok`/`status`
mirror the HTTP response, `errorText` is `response.text()` on failure, and
`access_token`/`expires_in` the parsed JSON on success. -/
structure TierResponse where
  ok : Bool
  status : Nat
  errorText : String
  access_token : String
  expires_in : Int
  deriving Repr, DecidableEq

/-- Responses the token endpoint would give to the three tiers. -/
structure T1T2Net where
  t1 : TierResponse
  t2 : TierResponse
  userFic : TierResponse
  deriving Repr, DecidableEq

/-- Parsed JSON of a successful callback response:
`{access_token, expires_at?, expires_in?}`. -/
structure CallbackJson where
  access_token : String
  expires_at : Option String := none
  expires_in : Option Int := none
  deriving Repr, DecidableEq

/-- Response oracle for the external token callback POST. -/
structure CallbackHttp where
  ok : Bool
  status : Nat
  errorText : String
  json : CallbackJson
  deriving Repr, DecidableEq

/-- Model of `fetchGraphTokenT1T2` (token.ts): three sequential POSTs to the
tenant token endpoint, each aborting the flow with a thrown error on a
non-ok response; on success `expiresAt = Date.now() + expires_in * 1000`.
The second component is the list of requests actually issued. -/
def fetchGraphTokenT1T2 (config : GraphTokenConfig) (username scope : String)
    (net : T1T2Net) (now : Int) :
    Except String CachedToken × List TokenRequest :=
  let req1 := TokenRequest.t1 config.blueprintClientAppId
    config.blueprintClientSecret config.aaInstanceId
  let r1 := net.t1
  if !r1.ok then
    (Except.error ("T1 token request failed (scope=" ++ scope ++ "): "
       ++ toString r1.status ++ " " ++ r1.errorText), [req1])
  else
    let req2 := TokenRequest.t2 config.aaInstanceId r1.access_token
    let r2 := net.t2
    if !r2.ok then
      (Except.error ("T2 token request failed (scope=" ++ scope ++ "): "
         ++ toString r2.status ++ " " ++ r2.errorText), [req1, req2])
    else
      let req3 := TokenRequest.userFic config.aaInstanceId r1.access_token
        username r2.access_token scope
      let r3 := net.userFic
      if !r3.ok then
        (Except.error ("User FIC token request failed (scope=" ++ scope ++ "): "
           ++ toString r3.status ++ " " ++ r3.errorText), [req1, req2, req3])
      else
        (Except.ok { accessToken := r3.access_token,
                     expiresAt := now + r3.expires_in * 1000 },
         [req1, req2, req3])

/-- Model of `fetchTokenFromCallback` (token.ts): one POST to the callback
URL; a non-ok response throws; on success the expiry is `expires_at`
parsed as a date when truthy, else `now + expires_in * 1000` when
`expires_in` is truthy (JS truthiness: 0 is falsy), else a 1-hour
default. `parseDate` models `new Date(s).getTime()`. -/
def fetchTokenFromCallback (config : TokenCallbackConfig)
    (username scope : String) (net : CallbackHttp)
    (parseDate : String → Int) (now : Int) :
    Except String CachedToken × List TokenRequest :=
  let req := TokenRequest.callback config.callbackUrl username scope
  if !net.ok then
    (Except.error ("Token callback failed: " ++ toString net.status ++ " "
       ++ net.errorText), [req])
  else
    let data := net.json
    let expiresAt : Int :=
      if strTruthy data.expires_at then parseDate (data.expires_at.getD "")
      else if numTruthy data.expires_in then
        now + (data.expires_in.getD 0) * 1000
      else now + 3600 * 1000
    (Except.ok { accessToken := data.access_token, expiresAt := expiresAt },
     [req])

/-- Model of `invalidateGraphTokenCache` (token.ts): with username and scope
delete the one key, with only a username delete every key that starts with
`username + "|"`, with neither clear everything. JS truthiness applies to
both arguments. -/
def invalidateGraphTokenCache (cache : List (String × CachedToken))
    (username scope : Option String) : List (String × CachedToken) :=
  if strTruthy username && strTruthy scope then
    cache.filter (fun p => p.1 != username.getD "" ++ "|" ++ scope.getD "")
  else if strTruthy username then
    cache.filter (fun p => !jsStartsWith p.1 (username.getD "" ++ "|"))
  else
    []

/-- Fresh-acquisition path of `getGraphToken`: try the external callback
when configured (falling through on its failure), then the T1/T2/User flow
when configured; cache any token obtained. Mirrors token.ts lines 264-309. -/
def acquireFreshToken (callbackCfg : Option TokenCallbackConfig)
    (tokenCfg : Option GraphTokenConfig) (username effScope cacheKey : String)
    (cbNet : CallbackHttp) (net : T1T2Net) (parseDate : String → Int)
    (now : Int) (cache : List (String × CachedToken)) :
    Option String × List (String × CachedToken) × List TokenRequest :=
  let viaT1T2 : Option String × List (String × CachedToken) × List TokenRequest :=
    match tokenCfg with
    | some tc =>
      match fetchGraphTokenT1T2 tc username effScope net now with
      | (Except.ok token, reqs) =>
        (some token.accessToken, mapSet cache cacheKey token, reqs)
      | (Except.error _, reqs) => (none, cache, reqs)
    | none => (none, cache, [])
  match callbackCfg with
  | some cb =>
    match fetchTokenFromCallback cb username effScope cbNet parseDate now with
    | (Except.ok token, reqs) =>
      (some token.accessToken, mapSet cache cacheKey token, reqs)
    | (Except.error _, reqs) =>
      (viaT1T2.1, viaT1T2.2.1, reqs ++ viaT1T2.2.2)
  | none => viaT1T2

/-- Model of `getGraphToken` (token.ts): effective scope is
`scope || cfg.graph.scope || "https://graph.microsoft.com/.default"`, the
cache key is `username + "|" + effectiveScope`, a cached token is returned
as-is when `expiresAt > Date.now() + 5*60*1000`, and otherwise a fresh
acquisition runs; on total failure the result is `none` (the source
returns `undefined`, deliberately dropping error details). -/
def getGraphToken (callbackCfg : Option TokenCallbackConfig)
    (tokenCfg : Option GraphTokenConfig) (cfgScope : Option String)
    (username : String) (scope : Option String) (cbNet : CallbackHttp)
    (net : T1T2Net) (parseDate : String → Int) (now : Int)
    (cache : List (String × CachedToken)) :
    Option String × List (String × CachedToken) × List TokenRequest :=
  let effScope := jsOrS scope (jsOrS cfgScope "https://graph.microsoft.com/.default")
  let cacheKey := username ++ "|" ++ effScope
  match mapGet cache cacheKey with
  | some cached =>
    if cached.expiresAt > now + 5 * 60 * 1000 then
      (some cached.accessToken, cache, [])
    else
      acquireFreshToken callbackCfg tokenCfg username effScope cacheKey
        cbNet net parseDate now cache
  | none =>
    acquireFreshToken callbackCfg tokenCfg username effScope cacheKey
      cbNet net parseDate now cache

/-- C3: in the three-tier exchange a failure at step N stops the flow: a T1
failure issues exactly one request and no T2 or user-tier request, a T2
failure issues no user-tier request, and each failing step throws its own
distinct error message embedding that step's HTTP status and raw provider
error body. -/
theorem fetchGraphTokenT1T2_fail_fast (config : GraphTokenConfig)
    (username scope : String) (net : T1T2Net) (now : Int) :
    (net.t1.ok = false →
      fetchGraphTokenT1T2 config username scope net now =
        (Except.error ("T1 token request failed (scope=" ++ scope ++ "): "
           ++ toString net.t1.status ++ " " ++ net.t1.errorText),
         [TokenRequest.t1 config.blueprintClientAppId
            config.blueprintClientSecret config.aaInstanceId]))
    ∧ (net.t1.ok = true → net.t2.ok = false →
      fetchGraphTokenT1T2 config username scope net now =
        (Except.error ("T2 token request failed (scope=" ++ scope ++ "): "
           ++ toString net.t2.status ++ " " ++ net.t2.errorText),
         [TokenRequest.t1 config.blueprintClientAppId
            config.blueprintClientSecret config.aaInstanceId,
          TokenRequest.t2 config.aaInstanceId net.t1.access_token]))
    ∧ (net.t1.ok = true → net.t2.ok = true → net.userFic.ok = false →
      fetchGraphTokenT1T2 config username scope net now =
        (Except.error ("User FIC token request failed (scope=" ++ scope ++ "): "
           ++ toString net.userFic.status ++ " " ++ net.userFic.errorText),
         [TokenRequest.t1 config.blueprintClientAppId
            config.blueprintClientSecret config.aaInstanceId,
          TokenRequest.t2 config.aaInstanceId net.t1.access_token,
          TokenRequest.userFic config.aaInstanceId net.t1.access_token
            username net.t2.access_token scope])) := by
  refine ⟨fun h1 => ?_, fun h1 h2 => ?_, fun h1 h2 h3 => ?_⟩ <;>
    simp [fetchGraphTokenT1T2, h1, *]

/-- Token configuration used in the concrete token-flow scenarios. -/
def cfgEx : GraphTokenConfig :=
  { tenantId := "469d", blueprintClientAppId := "8a09",
    blueprintClientSecret := "s3cret", aaInstanceId := "d7a4" }

/-- Successful tier response used in the concrete scenarios. -/
def tierOkEx : TierResponse :=
  { ok := true, status := 200, errorText := "", access_token := "tokT",
    expires_in := 3600 }

/-- Token-endpoint oracle where the T1 tier fails with HTTP 401. -/
def netT1Fail : T1T2Net :=
  { t1 := { ok := false, status := 401, errorText := "invalid_client",
            access_token := "", expires_in := 0 },
    t2 := tierOkEx, userFic := tierOkEx }

/-- Witness for C3: the T1-fails-with-401 scenario issues exactly the one
T1 request. -/
theorem fetchGraphTokenT1T2_fail_fast_witness :
    netT1Fail.t1.ok = false
    ∧ fetchGraphTokenT1T2 cfgEx "aila@jemix.com"
        "https://graph.microsoft.com/.default" netT1Fail 0 =
      (Except.error ("T1 token request failed (scope="
         ++ "https://graph.microsoft.com/.default" ++ "): "
         ++ toString netT1Fail.t1.status ++ " " ++ netT1Fail.t1.errorText),
       [TokenRequest.t1 cfgEx.blueprintClientAppId
          cfgEx.blueprintClientSecret cfgEx.aaInstanceId]) :=
  ⟨rfl, (fetchGraphTokenT1T2_fail_fast cfgEx "aila@jemix.com"
    "https://graph.microsoft.com/.default" netT1Fail 0).1 rfl⟩

/-- Callback response oracle carrying both `expires_at` and `expires_in`. -/
def cbBothFields : CallbackHttp :=
  { ok := true, status := 200, errorText := "",
    json := { access_token := "cbTok",
              expires_at := some "2030-01-01T00:00:00Z",
              expires_in := some 60 } }

/-- Date parser oracle mapping every string to the epoch milliseconds of
2030-01-01T00:00:00Z. -/
def parseDateEx : String → Int := fun _ => 1893456000000

/-- C9 counterexample: a callback response supplying `expires_in = 60`
together with `expires_at` stores the parsed `expires_at`, not
`now + expires_in * 1000` — so "whenever a response supplies expires_in the
stored expiresAt equals now + expires_in * 1000" is false. -/
theorem callback_expires_at_overrides_expires_in :
    (fetchTokenFromCallback { callbackUrl := "https://cb" } "u" "s"
        cbBothFields parseDateEx 0).1 =
      Except.ok { accessToken := "cbTok", expiresAt := 1893456000000 }
    ∧ cbBothFields.json.expires_in = some 60
    ∧ (1893456000000 : Int) ≠ 0 + 60 * 1000 := by
  refine ⟨rfl, rfl, by decide⟩

/-- C9 (amended): expiry is computed in milliseconds: a truthy `expires_at`
takes precedence and is parsed as the absolute expiry; otherwise a present
nonzero `expires_in` (seconds) gives `now + expires_in * 1000`; otherwise
(both absent or falsy, including `expires_in = 0`) the default is exactly
one hour; the user-tier response of the three-tier flow always stores
`now + expires_in * 1000`. -/
theorem token_expiry_semantics (config : TokenCallbackConfig)
    (username scope : String) (net : CallbackHttp)
    (parseDate : String → Int) (now : Int) (tcfg : GraphTokenConfig)
    (tnet : T1T2Net) :
    (net.ok = true → strTruthy net.json.expires_at = true →
      (fetchTokenFromCallback config username scope net parseDate now).1 =
        Except.ok { accessToken := net.json.access_token,
                    expiresAt := parseDate (net.json.expires_at.getD "") })
    ∧ (net.ok = true → strTruthy net.json.expires_at = false →
        ∀ n : Int, net.json.expires_in = some n → n ≠ 0 →
      (fetchTokenFromCallback config username scope net parseDate now).1 =
        Except.ok { accessToken := net.json.access_token,
                    expiresAt := now + n * 1000 })
    ∧ (net.ok = true → strTruthy net.json.expires_at = false →
        numTruthy net.json.expires_in = false →
      (fetchTokenFromCallback config username scope net parseDate now).1 =
        Except.ok { accessToken := net.json.access_token,
                    expiresAt := now + 3600 * 1000 })
    ∧ (tnet.t1.ok = true → tnet.t2.ok = true → tnet.userFic.ok = true →
      (fetchGraphTokenT1T2 tcfg username scope tnet now).1 =
        Except.ok { accessToken := tnet.userFic.access_token,
                    expiresAt := now + tnet.userFic.expires_in * 1000 }) := by
  refine ⟨?_, ?_, ?_, ?_⟩
  · intro h1 h2
    simp [fetchTokenFromCallback, h1, h2]
  · intro h1 h2 n hn hne
    simp [fetchTokenFromCallback, h1, h2, hn, numTruthy, hne]
  · intro h1 h2 h3
    simp [fetchTokenFromCallback, h1, h2, h3]
  · intro h1 h2 h3
    simp [fetchGraphTokenT1T2, h1, h2, h3]

/-- Token-endpoint oracle where all three tiers succeed. -/
def netAllOk : T1T2Net :=
  { t1 := tierOkEx, t2 := tierOkEx,
    userFic := { tierOkEx with access_token := "userTok", expires_in := 3599 } }

/-- Witness for C9's amended theorem: the expires_at-precedence case and
the user-tier seconds-to-milliseconds case at concrete inputs. -/
theorem token_expiry_semantics_witness :
    cbBothFields.ok = true
    ∧ strTruthy cbBothFields.json.expires_at = true
    ∧ (fetchTokenFromCallback { callbackUrl := "https://cb" } "u" "s"
          cbBothFields parseDateEx 0).1 =
        Except.ok { accessToken := "cbTok",
                    expiresAt := parseDateEx (cbBothFields.json.expires_at.getD "") }
    ∧ (fetchGraphTokenT1T2 cfgEx "u" "s" netAllOk 100).1 =
        Except.ok { accessToken := "userTok", expiresAt := 100 + 3599 * 1000 } :=
  ⟨rfl, rfl,
   (token_expiry_semantics { callbackUrl := "https://cb" } "u" "s"
      cbBothFields parseDateEx 0 cfgEx netAllOk).1 rfl rfl,
   (token_expiry_semantics { callbackUrl := "https://cb" } "u" "s"
      cbBothFields parseDateEx 100 cfgEx netAllOk).2.2.2 rfl rfl rfl⟩

/-- Ambient token used in cache scenarios. -/
def tokEx : CachedToken := { accessToken := "tokA", expiresAt := 99 }

/-- C8 counterexample: the cache key of identity "a\x7cb" and scope "s" is
the flat string "a\x7cb\x7cs", which starts with "a\x7c"; invalidating
identity "a" with no scope therefore deletes the entry even though it
belongs to the different identity "a\x7cb". -/
theorem invalidate_removes_entry_of_other_identity :
    invalidateGraphTokenCache [("a|b" ++ "|" ++ "s", tokEx)] (some "a") none = []
    ∧ ("a|b" : String) ≠ "a" := by
  refine ⟨rfl, by decide⟩

/-- Prefix test against `i ++ "\x7c"` on a key `u ++ "\x7c" ++ s` succeeds
exactly for `u = i`, provided neither identity contains the separator. -/
theorem strHasPre_bar_iff : ∀ (i u s : List Char), ('|' : Char) ∉ i →
    ('|' : Char) ∉ u →
    (strHasPre (i ++ ['|']) (u ++ '|' :: s) = true ↔ u = i) := by
  intro i
  induction i with
  | nil =>
    intro u s hi hu
    cases u with
    | nil => simp [strHasPre]
    | cons c cs =>
      simp only [List.mem_cons, not_or] at hu
      simp [strHasPre, hu.1]
  | cons a as ih =>
    intro u s hi hu
    simp only [List.mem_cons, not_or] at hi
    cases u with
    | nil =>
      have ha : ¬(a = '|') := fun h => hi.1 h.symm
      simp [strHasPre, ha]
    | cons c cs =>
      simp only [List.mem_cons, not_or] at hu
      have ihcs := ih cs s hi.2 hu.2
      simp only [List.cons_append, strHasPre, Bool.and_eq_true, beq_iff_eq,
        List.append_eq]
      rw [ihcs]
      constructor
      · rintro ⟨h1, h2⟩
        rw [← h1, h2]
      · intro h
        injection h with h1 h2
        exact ⟨h1.symm, h2⟩

/-- C8 (amended): for identities that do not contain the "\x7c" cache-key
separator, `invalidate(identity)` with no scope removes exactly the entries
keyed under that identity (every scope) and leaves every entry of any other
separator-free identity unchanged; an identity containing "\x7c" can also
remove entries of a different identity (see the counterexample). -/
theorem invalidateGraphTokenCache_per_identity
    (cache : List (String × CachedToken)) (i u s : String) (tok : CachedToken)
    (hi : ('|' : Char) ∉ i.data) (hu : ('|' : Char) ∉ u.data) (hne : i ≠ "") :
    ((u ++ "|" ++ s, tok) ∈ invalidateGraphTokenCache cache (some i) none
      ↔ (u ++ "|" ++ s, tok) ∈ cache ∧ u ≠ i) := by
  have hit : strTruthy (some i) = true := by simp [strTruthy, hne]
  have hinv : invalidateGraphTokenCache cache (some i) none
      = cache.filter (fun p => !jsStartsWith p.1 (i ++ "|")) := by
    unfold invalidateGraphTokenCache
    rw [show strTruthy none = false from rfl, hit]
    simp
  have hkey : jsStartsWith (u ++ "|" ++ s) (i ++ "|")
      = strHasPre (i.data ++ ['|']) (u.data ++ '|' :: s.data) := by
    simp [jsStartsWith, String.data_append]
  rw [hinv, List.mem_filter]
  constructor
  · rintro ⟨hmem, hpre⟩
    refine ⟨hmem, fun hequ => ?_⟩
    simp only [hkey, Bool.not_eq_true'] at hpre
    rw [(strHasPre_bar_iff i.data u.data s.data hi hu).mpr (by rw [hequ])]
      at hpre
    cases hpre
  · rintro ⟨hmem, hnequ⟩
    refine ⟨hmem, ?_⟩
    simp only [hkey, Bool.not_eq_true']
    cases hp : strHasPre (i.data ++ ['|']) (u.data ++ '|' :: s.data) with
    | false => rfl
    | true =>
      have := (strHasPre_bar_iff i.data u.data s.data hi hu).mp hp
      exact absurd (String.ext this) hnequ

/-- Witness for C8's amended theorem: invalidating identity "alice" keeps
bob's entry and drops alice's. -/
theorem invalidateGraphTokenCache_per_identity_witness :
    (('|' : Char) ∉ ("alice" : String).data ∧ ('|' : Char) ∉ ("bob" : String).data
      ∧ ("alice" : String) ≠ "")
    ∧ (("bob" ++ "|" ++ "s1", tokEx) ∈
        invalidateGraphTokenCache
          [("alice" ++ "|" ++ "s1", tokEx), ("bob" ++ "|" ++ "s1", tokEx)]
          (some "alice") none
      ↔ ("bob" ++ "|" ++ "s1", tokEx) ∈
          ([("alice" ++ "|" ++ "s1", tokEx), ("bob" ++ "|" ++ "s1", tokEx)] :
            List (String × CachedToken)) ∧ ("bob" : String) ≠ "alice") :=
  ⟨⟨by decide, by decide, by decide⟩,
   invalidateGraphTokenCache_per_identity
     [("alice" ++ "|" ++ "s1", tokEx), ("bob" ++ "|" ++ "s1", tokEx)]
     "alice" "bob" "s1" tokEx (by decide) (by decide) (by decide)⟩

/-- Trace of the three-tier exchange is never empty: the T1 request is
always issued. -/
theorem fetchGraphTokenT1T2_trace_ne_nil (config : GraphTokenConfig)
    (username scope : String) (net : T1T2Net) (now : Int) :
    (fetchGraphTokenT1T2 config username scope net now).2 ≠ [] := by
  rcases h1 : net.t1.ok <;> rcases h2 : net.t2.ok <;>
    rcases h3 : net.userFic.ok <;>
    simp [fetchGraphTokenT1T2, h1, h2, h3]

/-- Trace of the callback fetch is exactly the one callback request. -/
theorem fetchTokenFromCallback_trace (config : TokenCallbackConfig)
    (username scope : String) (net : CallbackHttp) (parseDate : String → Int)
    (now : Int) :
    (fetchTokenFromCallback config username scope net parseDate now).2
      = [TokenRequest.callback config.callbackUrl username scope] := by
  rcases h : net.ok <;> simp [fetchTokenFromCallback, h]

/-- With neither the callback nor the T1/T2 flow configured, fresh
acquisition does nothing and yields no token. -/
theorem acquireFreshToken_none_none (username effScope cacheKey : String)
    (cbNet : CallbackHttp) (net : T1T2Net) (parseDate : String → Int)
    (now : Int) (cache : List (String × CachedToken)) :
    acquireFreshToken none none username effScope cacheKey cbNet net parseDate
      now cache = (none, cache, []) := rfl

/-- With at least one acquisition path configured, fresh acquisition always
issues at least one network request. -/
theorem acquireFreshToken_trace_ne_nil (callbackCfg : Option TokenCallbackConfig)
    (tokenCfg : Option GraphTokenConfig) (username effScope cacheKey : String)
    (cbNet : CallbackHttp) (net : T1T2Net) (parseDate : String → Int)
    (now : Int) (cache : List (String × CachedToken))
    (hcfg : callbackCfg.isSome = true ∨ tokenCfg.isSome = true) :
    (acquireFreshToken callbackCfg tokenCfg username effScope cacheKey cbNet
      net parseDate now cache).2.2 ≠ [] := by
  cases callbackCfg with
  | some cb =>
    rcases hf : fetchTokenFromCallback cb username effScope cbNet parseDate now
      with ⟨exc, reqs⟩
    have hreqs : reqs = [TokenRequest.callback cb.callbackUrl username effScope] := by
      have ht := fetchTokenFromCallback_trace cb username effScope cbNet parseDate now
      rw [hf] at ht
      exact ht
    cases exc with
    | ok token => simp [acquireFreshToken, hf, hreqs]
    | error e => simp [acquireFreshToken, hf, hreqs]
  | none =>
    cases tokenCfg with
    | none => simp at hcfg
    | some tc =>
      rcases hf : fetchGraphTokenT1T2 tc username effScope net now
        with ⟨exc, reqs⟩
      have hreqs : reqs ≠ [] := by
        have ht := fetchGraphTokenT1T2_trace_ne_nil tc username effScope net now
        rw [hf] at ht
        exact ht
      cases exc with
      | ok token => simpa [acquireFreshToken, hf] using hreqs
      | error e => simpa [acquireFreshToken, hf] using hreqs

/-- C4: with a cached entry under the key `username + "\x7c" + effectiveScope`,
`getGraphToken` returns the cached token value with no network request if
and only if the entry's `expiresAt` is strictly more than 5 minutes past
`now`; on a hit nothing else changes, and on a within-5-minutes entry a
fresh acquisition is performed (at least one request is issued) whenever an
acquisition path is configured. -/
theorem getGraphToken_cache_window (callbackCfg : Option TokenCallbackConfig)
    (tokenCfg : Option GraphTokenConfig) (cfgScope : Option String)
    (username : String) (scope : Option String) (cbNet : CallbackHttp)
    (net : T1T2Net) (parseDate : String → Int) (now : Int)
    (cache : List (String × CachedToken)) (c : CachedToken)
    (h : mapGet cache (username ++ "|" ++
        jsOrS scope (jsOrS cfgScope "https://graph.microsoft.com/.default"))
      = some c) :
    (c.expiresAt > now + 5 * 60 * 1000 →
      getGraphToken callbackCfg tokenCfg cfgScope username scope cbNet net
        parseDate now cache = (some c.accessToken, cache, []))
    ∧ (((getGraphToken callbackCfg tokenCfg cfgScope username scope cbNet net
          parseDate now cache).1 = some c.accessToken
        ∧ (getGraphToken callbackCfg tokenCfg cfgScope username scope cbNet net
            parseDate now cache).2.2 = [])
        ↔ c.expiresAt > now + 5 * 60 * 1000)
    ∧ (c.expiresAt ≤ now + 5 * 60 * 1000 →
        (callbackCfg.isSome = true ∨ tokenCfg.isSome = true) →
        (getGraphToken callbackCfg tokenCfg cfgScope username scope cbNet net
          parseDate now cache).2.2 ≠ []) := by
  have hg : getGraphToken callbackCfg tokenCfg cfgScope username scope cbNet
      net parseDate now cache
      = if c.expiresAt > now + 5 * 60 * 1000 then (some c.accessToken, cache, [])
        else acquireFreshToken callbackCfg tokenCfg username
          (jsOrS scope (jsOrS cfgScope "https://graph.microsoft.com/.default"))
          (username ++ "|" ++
            jsOrS scope (jsOrS cfgScope "https://graph.microsoft.com/.default"))
          cbNet net parseDate now cache := by
    simp only [getGraphToken]
    rw [h]
  by_cases hv : c.expiresAt > now + 5 * 60 * 1000
  · rw [hg, if_pos hv]
    exact ⟨fun _ => rfl, ⟨fun _ => hv, fun _ => ⟨rfl, rfl⟩⟩,
      fun hle _ => absurd hv (not_lt.mpr hle)⟩
  · rw [hg, if_neg hv]
    refine ⟨fun hvv => absurd hvv hv, ⟨?_, fun hvv => absurd hvv hv⟩,
      fun _ hcfg => acquireFreshToken_trace_ne_nil callbackCfg tokenCfg
        username _ _ cbNet net parseDate now cache hcfg⟩
    rintro ⟨ha, hb⟩
    exfalso
    cases callbackCfg with
    | some cb =>
      exact acquireFreshToken_trace_ne_nil (some cb) tokenCfg username _ _
        cbNet net parseDate now cache (Or.inl rfl) hb
    | none =>
      cases tokenCfg with
      | some tc =>
        exact acquireFreshToken_trace_ne_nil none (some tc) username _ _
          cbNet net parseDate now cache (Or.inr rfl) hb
      | none =>
        rw [acquireFreshToken_none_none] at ha
        exact Option.noConfusion ha

/-- Cache holding a token for identity "u" and scope "s" that is valid far
beyond the 5-minute buffer. -/
def cacheFreshEx : List (String × CachedToken) :=
  [("u" ++ "|" ++ "s", { accessToken := "tokFresh", expiresAt := 1000000000 })]

/-- Callback oracle never consulted in the cache-hit scenario. -/
def cbNetDummy : CallbackHttp :=
  { ok := true, status := 200, errorText := "", json := { access_token := "x" } }

/-- Witness for C4: at `now = 0` the cached entry expiring at 10^9 ms is a
hit — the identical token value is returned with no network request and an
unchanged cache. -/
theorem getGraphToken_cache_window_witness :
    mapGet cacheFreshEx ("u" ++ "|" ++
        jsOrS (some "s") (jsOrS none "https://graph.microsoft.com/.default"))
      = some { accessToken := "tokFresh", expiresAt := 1000000000 }
    ∧ ({ accessToken := "tokFresh", expiresAt := 1000000000 : CachedToken }.expiresAt
        > (0 : Int) + 5 * 60 * 1000)
    ∧ getGraphToken none none none "u" (some "s") cbNetDummy netAllOk
        parseDateEx 0 cacheFreshEx = (some "tokFresh", cacheFreshEx, []) :=
  ⟨rfl, by decide,
   (getGraphToken_cache_window none none none "u" (some "s") cbNetDummy
      netAllOk parseDateEx 0 cacheFreshEx
      { accessToken := "tokFresh", expiresAt := 1000000000 } rfl).1 (by decide)⟩

/-- C1 counterexample: with the three-tier flow configured, an empty cache,
and the T1 tier failing with HTTP 401 and body "invalid_client",
`getGraphToken` returns a bare `none` — the returned value carries no tier
name, no HTTP status and no provider error body. -/
theorem getGraphToken_failure_loses_details :
    getGraphToken none (some cfgEx) none "aila@jemix.com" none cbNetDummy
        netT1Fail parseDateEx 0 []
      = (none, [],
         [TokenRequest.t1 cfgEx.blueprintClientAppId
            cfgEx.blueprintClientSecret cfgEx.aaInstanceId]) := rfl

/-- C1 (amended): on acquisition failure `getGraphToken` deliberately
returns a bare absent value (its doc comment: "a simpler API at the cost of
losing error details"); the tier name, HTTP status and raw provider error
body are carried only by the internal `fetchGraphTokenT1T2` error, which
`getGraphToken` catches and logs away. Stated for a cache miss with no
callback configured and a failure at any of the three tiers. -/
theorem getGraphToken_failure_returns_bare_none (tc : GraphTokenConfig)
    (cfgScope : Option String) (username : String) (scope : Option String)
    (cbNet : CallbackHttp) (net : T1T2Net) (parseDate : String → Int)
    (now : Int) (cache : List (String × CachedToken))
    (hmiss : mapGet cache (username ++ "|" ++
        jsOrS scope (jsOrS cfgScope "https://graph.microsoft.com/.default"))
      = none) :
    (net.t1.ok = false →
      (getGraphToken none (some tc) cfgScope username scope cbNet net parseDate
        now cache).1 = none
      ∧ (fetchGraphTokenT1T2 tc username
          (jsOrS scope (jsOrS cfgScope "https://graph.microsoft.com/.default"))
          net now).1
        = Except.error ("T1 token request failed (scope="
            ++ jsOrS scope (jsOrS cfgScope "https://graph.microsoft.com/.default")
            ++ "): " ++ toString net.t1.status ++ " " ++ net.t1.errorText))
    ∧ (net.t1.ok = true → net.t2.ok = false →
      (getGraphToken none (some tc) cfgScope username scope cbNet net parseDate
        now cache).1 = none
      ∧ (fetchGraphTokenT1T2 tc username
          (jsOrS scope (jsOrS cfgScope "https://graph.microsoft.com/.default"))
          net now).1
        = Except.error ("T2 token request failed (scope="
            ++ jsOrS scope (jsOrS cfgScope "https://graph.microsoft.com/.default")
            ++ "): " ++ toString net.t2.status ++ " " ++ net.t2.errorText))
    ∧ (net.t1.ok = true → net.t2.ok = true → net.userFic.ok = false →
      (getGraphToken none (some tc) cfgScope username scope cbNet net parseDate
        now cache).1 = none
      ∧ (fetchGraphTokenT1T2 tc username
          (jsOrS scope (jsOrS cfgScope "https://graph.microsoft.com/.default"))
          net now).1
        = Except.error ("User FIC token request failed (scope="
            ++ jsOrS scope (jsOrS cfgScope "https://graph.microsoft.com/.default")
            ++ "): " ++ toString net.userFic.status ++ " "
            ++ net.userFic.errorText)) := by
  have hg : getGraphToken none (some tc) cfgScope username scope cbNet net
      parseDate now cache
      = acquireFreshToken none (some tc) username
          (jsOrS scope (jsOrS cfgScope "https://graph.microsoft.com/.default"))
          (username ++ "|" ++
            jsOrS scope (jsOrS cfgScope "https://graph.microsoft.com/.default"))
          cbNet net parseDate now cache := by
    simp only [getGraphToken]
    rw [hmiss]
  refine ⟨fun h1 => ⟨?_, ?_⟩, fun h1 h2 => ⟨?_, ?_⟩, fun h1 h2 h3 => ⟨?_, ?_⟩⟩
  · rw [hg]
    simp [acquireFreshToken, fetchGraphTokenT1T2, h1]
  · simp [fetchGraphTokenT1T2, h1]
  · rw [hg]
    simp [acquireFreshToken, fetchGraphTokenT1T2, h1, h2]
  · simp [fetchGraphTokenT1T2, h1, h2]
  · rw [hg]
    simp [acquireFreshToken, fetchGraphTokenT1T2, h1, h2, h3]
  · simp [fetchGraphTokenT1T2, h1, h2, h3]

/-- Witness for C1's amended theorem at the T1-fails-with-401 scenario on an
empty cache. -/
theorem getGraphToken_failure_returns_bare_none_witness :
    mapGet ([] : List (String × CachedToken)) ("aila@jemix.com" ++ "|" ++
        jsOrS none (jsOrS none "https://graph.microsoft.com/.default")) = none
    ∧ netT1Fail.t1.ok = false
    ∧ ((getGraphToken none (some cfgEx) none "aila@jemix.com" none cbNetDummy
          netT1Fail parseDateEx 0 []).1 = none
       ∧ (fetchGraphTokenT1T2 cfgEx "aila@jemix.com"
            (jsOrS none (jsOrS none "https://graph.microsoft.com/.default"))
            netT1Fail 0).1
         = Except.error ("T1 token request failed (scope="
             ++ jsOrS none (jsOrS none "https://graph.microsoft.com/.default")
             ++ "): " ++ toString netT1Fail.t1.status ++ " "
             ++ netT1Fail.t1.errorText)) :=
  ⟨rfl, rfl,
   (getGraphToken_failure_returns_bare_none cfgEx none "aila@jemix.com" none
      cbNetDummy netT1Fail parseDateEx 0 [] rfl).1 rfl⟩

/-! ## Outbound delivery resolver (`src/outbound.ts`) -/

/-- Fields of `A365MessageMetadata` (types.ts) consumed by
`resolveConversation`; in the source both are required strings, with `""`
standing for "not available" (JS-falsy). The remaining metadata fields are
not read by the resolver. -/
structure A365MessageMetadata where
  conversationId : String
  serviceUrl : String
  deriving Repr, DecidableEq

/-- Model of `resolveConversation` (outbound.ts lines 17-59). Order:
directly supplied values, store lookup by conversation id, by-user lookup
for separator-free identifiers, tenant-derived service URL synthesis,
otherwise `null`. -/
def resolveConversation (store : ConversationStore)
    (toTarget serviceUrl : Option String)
    (metadata : Option A365MessageMetadata) (tenantId : Option String) :
    Option (String × String) :=
  let conversationId0 := jsOrOpt toTarget (metadata.map (fun m => m.conversationId))
  let serviceUrl0 := jsOrOpt serviceUrl (metadata.map (fun m => m.serviceUrl))
  let pair :=
    if !strTruthy serviceUrl0 && strTruthy conversationId0 then
      let cid := conversationId0.getD ""
      let storedRef0 := getConversationReference store cid
      let storedRef :=
        if storedRef0.isNone && !strContainsChar cid ':'
            && !strContainsChar cid '@' then
          getConversationReferenceByUser store cid
        else storedRef0
      match storedRef with
      | some ref =>
        -- the source assigns `conversationId = storedRef.conversationId`,
        -- but StoredConversationReference has no `conversationId` property
        -- (the id lives at `ref.conversation.id`), so the JS property
        -- access yields `undefined`
        ((none : Option String), ref.serviceUrl)
      | none => (conversationId0, serviceUrl0)
    else (conversationId0, serviceUrl0)
  let serviceUrl2 :=
    if !strTruthy pair.2 && strTruthy tenantId then
      some ("https://smba.trafficmanager.net/amer/" ++ tenantId.getD "" ++ "/")
    else pair.2
  if !strTruthy serviceUrl2 || !strTruthy pair.1 then none
  else some (pair.1.getD "", serviceUrl2.getD "")

/-- Stored SDK-shaped reference for the proactive-delivery scenario: saved
under conversation id "19:abc" for user "399f383c" with a full service
URL. -/
def refC6 : StoredConversationReference :=
  { conversation := { id := "19:abc", isGroup := some false,
                      tenantId := some "469d" },
    channelId := "msteams",
    serviceUrl := some "https://smba.trafficmanager.net/amer/469d/" }

/-- Store containing exactly the reference above. -/
def storeC6 : ConversationStore :=
  { references :=
      [("19:abc", { ref := refC6, updatedAt := 42, userAadId := some "399f383c" })] }

/-- C6: evaluation of the failing input. The by-user fallback finds the
stored reference (which carries both delivery coordinates), yet
`resolveConversation` returns `none`, because it copies the nonexistent
`storedRef.conversationId` property (always `undefined`) instead of
`storedRef.conversation.id`, and the final completeness check then
rejects the result. -/
theorem resolveConversation_user_fallback_loses_conversation_id :
    getConversationReferenceByUser storeC6 "399f383c" = some refC6
    ∧ refC6.conversation.id = "19:abc"
    ∧ refC6.serviceUrl = some "https://smba.trafficmanager.net/amer/469d/"
    ∧ resolveConversation storeC6 (some "399f383c") none none (some "469d")
        = none :=
  ⟨rfl, rfl, rfl, rfl⟩

/-- Whitespace class of the JS `String.prototype.trim`. -/
def isJsSpace (c : Char) : Bool :=
  c == ' ' || c == '\t' || c == '\n' || c == '\r'

/-- Model of the JS `s.trim()`: drop whitespace from both ends. -/
def jsTrim (s : String) : String :=
  ⟨((s.data.dropWhile isJsSpace).reverse.dropWhile isJsSpace).reverse⟩

/-- Loop of `normalizeA365Target`: try each known prefix in order and
return the remainder after the first match; fall through to the trimmed
input itself. -/
def stripLoop (ps : List String) (t : String) : String :=
  match ps with
  | [] => t
  | p :: rest => if jsStartsWith t p then jsSliceFrom t p.length else stripLoop rest t

/-- Prefix list of `normalizeA365Target`, in source order. -/
def a365KnownPres : List String := ["user:", "conversation:", "a365:", "a365:group:"]

/-- Model of `normalizeA365Target` (outbound.ts lines 231-247): falsy input
gives `undefined`, the input is trimmed, a blank trim gives `undefined`,
then the prefix loop strips at most one known prefix. -/
def normalizeA365Target (toTarget : Option String) : Option String :=
  if strTruthy toTarget = false then none
  else
    let trimmed := jsTrim (toTarget.getD "")
    if trimmed = "" then none
    else some (stripLoop a365KnownPres trimmed)

/-- C10: for every input whose trimmed form begins with "a365:group:", the
"a365:" entry matches first, so the result is "group:" followed by the
remainder — and that result differs from the remainder itself, so the
"a365:group:" prefix entry is never the one stripped. -/
theorem normalizeA365Target_a365group (toTarget r : String)
    (h : jsTrim toTarget = "a365:group:" ++ r) :
    normalizeA365Target (some toTarget) = some ("group:" ++ r)
    ∧ ("group:" ++ r : String) ≠ r := by
  have hdata : ("a365:group:" ++ r).data
      = 'a' :: '3' :: '6' :: '5' :: ':' :: 'g' :: 'r' :: 'o' :: 'u' :: 'p'
        :: ':' :: r.data := by
    rw [String.data_append]
    rfl
  have hne : ("a365:group:" ++ r) ≠ "" := by
    intro he
    have hd := congrArg String.data he
    rw [hdata] at hd
    cases hd
  have hto : toTarget ≠ "" := by
    intro he
    rw [he] at h
    rw [show jsTrim "" = "" from rfl] at h
    exact hne h.symm
  constructor
  · have htt : strTruthy (some toTarget) = true := by simp [strTruthy, hto]
    unfold normalizeA365Target
    rw [htt]
    simp only [Bool.true_eq_false, if_false, Option.getD_some]
    rw [h, if_neg hne]
    show some (stripLoop a365KnownPres ("a365:group:" ++ r)) = _
    rfl
  · intro he
    have hd := congrArg String.data he
    rw [String.data_append] at hd
    have hl := congrArg List.length hd
    rw [List.length_append,
      show ("group:" : String).data.length = 6 from rfl] at hl
    omega

/-- Witness for C10 at the concrete target "a365:group:19:xyz". -/
theorem normalizeA365Target_a365group_witness :
    jsTrim "a365:group:19:xyz" = "a365:group:" ++ "19:xyz"
    ∧ normalizeA365Target (some "a365:group:19:xyz") = some ("group:" ++ "19:xyz")
    ∧ ("group:" ++ "19:xyz" : String) ≠ "19:xyz" :=
  ⟨by decide,
   (normalizeA365Target_a365group "a365:group:19:xyz" "19:xyz" (by decide)).1,
   (normalizeA365Target_a365group "a365:group:19:xyz" "19:xyz" (by decide)).2⟩

end OpenClawA365
